import Mathlib

/-!
Verification of the MySmartBike web-API client
(`custom_components/mysmartbike/webapi.py`).

The development shallowly embeds the decoded-JSON data model and the three
operations of the client — `login`, `get_device_list` and the device mapper
`_build_device_list` — together with the header construction of `_request`,
and proves the behavioural properties claimed by the specification.

Python values produced by `json.loads` (plus Python `None`, which both the
transport layer and `dict.get` can produce) are modelled by the inductive
type `Json`, with `Json.null` standing for Python `None`.  Python exceptions
raised by the modelled code are made explicit through `Except PyError`.
-/

namespace MySmartBike

/-- Decoded JSON value as seen by the Python client; `null` also stands for
Python `None` (the value `json.loads` gives for JSON `null`, the value
`dict.get` gives for an absent key, and the value `_request` returns when it
swallows an unexpected failure).  Numbers are modelled as rationals. -/
inductive Json where
  | null
  | bool (b : Bool)
  | num (q : ℚ)
  | str (s : String)
  | arr (items : List Json)
  | obj (fields : List (String × Json))

mutual

/-- Decidable equality on `Json`, written by hand because the automatic
derivation does not handle the nested lists. -/
def Json.decEq : (a b : Json) → Decidable (a = b)
  | .null, .null => isTrue rfl
  | .bool a, .bool b =>
    match instDecidableEqBool a b with
    | isTrue h => isTrue (h ▸ rfl)
    | isFalse h => isFalse (fun hh => h (Json.bool.inj hh))
  | .num a, .num b =>
    match instDecidableEqRat a b with
    | isTrue h => isTrue (h ▸ rfl)
    | isFalse h => isFalse (fun hh => h (Json.num.inj hh))
  | .str a, .str b =>
    match instDecidableEqString a b with
    | isTrue h => isTrue (h ▸ rfl)
    | isFalse h => isFalse (fun hh => h (Json.str.inj hh))
  | .arr a, .arr b =>
    match Json.decEqList a b with
    | isTrue h => isTrue (h ▸ rfl)
    | isFalse h => isFalse (fun hh => h (Json.arr.inj hh))
  | .obj a, .obj b =>
    match Json.decEqKVList a b with
    | isTrue h => isTrue (h ▸ rfl)
    | isFalse h => isFalse (fun hh => h (Json.obj.inj hh))
  | .null, .bool _ => isFalse nofun
  | .null, .num _ => isFalse nofun
  | .null, .str _ => isFalse nofun
  | .null, .arr _ => isFalse nofun
  | .null, .obj _ => isFalse nofun
  | .bool _, .null => isFalse nofun
  | .bool _, .num _ => isFalse nofun
  | .bool _, .str _ => isFalse nofun
  | .bool _, .arr _ => isFalse nofun
  | .bool _, .obj _ => isFalse nofun
  | .num _, .null => isFalse nofun
  | .num _, .bool _ => isFalse nofun
  | .num _, .str _ => isFalse nofun
  | .num _, .arr _ => isFalse nofun
  | .num _, .obj _ => isFalse nofun
  | .str _, .null => isFalse nofun
  | .str _, .bool _ => isFalse nofun
  | .str _, .num _ => isFalse nofun
  | .str _, .arr _ => isFalse nofun
  | .str _, .obj _ => isFalse nofun
  | .arr _, .null => isFalse nofun
  | .arr _, .bool _ => isFalse nofun
  | .arr _, .num _ => isFalse nofun
  | .arr _, .str _ => isFalse nofun
  | .arr _, .obj _ => isFalse nofun
  | .obj _, .null => isFalse nofun
  | .obj _, .bool _ => isFalse nofun
  | .obj _, .num _ => isFalse nofun
  | .obj _, .str _ => isFalse nofun
  | .obj _, .arr _ => isFalse nofun

/-- Decidable equality on lists of `Json`. -/
def Json.decEqList : (a b : List Json) → Decidable (a = b)
  | [], [] => isTrue rfl
  | [], _ :: _ => isFalse nofun
  | _ :: _, [] => isFalse nofun
  | x :: xs, y :: ys =>
    match Json.decEq x y, Json.decEqList xs ys with
    | isTrue h1, isTrue h2 => isTrue (h1 ▸ h2 ▸ rfl)
    | isFalse h1, _ => isFalse (fun hh => h1 (List.cons.inj hh).1)
    | _, isFalse h2 => isFalse (fun hh => h2 (List.cons.inj hh).2)

/-- Decidable equality on key/value lists of `Json`. -/
def Json.decEqKVList : (a b : List (String × Json)) → Decidable (a = b)
  | [], [] => isTrue rfl
  | [], _ :: _ => isFalse nofun
  | _ :: _, [] => isFalse nofun
  | (k, v) :: xs, (k2, v2) :: ys =>
    match instDecidableEqString k k2, Json.decEq v v2, Json.decEqKVList xs ys with
    | isTrue h0, isTrue h1, isTrue h2 => isTrue (h0 ▸ h1 ▸ h2 ▸ rfl)
    | isFalse h0, _, _ => isFalse (fun hh => h0 (congrArg Prod.fst (List.cons.inj hh).1))
    | _, isFalse h1, _ => isFalse (fun hh => h1 (congrArg Prod.snd (List.cons.inj hh).1))
    | _, _, isFalse h2 => isFalse (fun hh => h2 (List.cons.inj hh).2)

end

instance : DecidableEq Json := Json.decEq

/-- Python exceptions that the modelled code can raise. -/
inductive PyError where
  /-- AttributeError, raised by `.get` on a value that is not a dict
  (in particular on `None`). -/
  | attrError
  /-- KeyError, raised by `d[k]` when the key is absent from the dict. -/
  | keyError
  /-- TypeError, raised e.g. by subscripting or iterating an unsuitable value,
  or by `datetime.strptime` on a non-string argument. -/
  | typeError
  /-- ValueError, raised by `datetime.strptime` when the string does not match
  the format. -/
  | valueError
  /-- MySmartBikeAuthException carrying the raw response. -/
  | authException (response : Json)
  deriving DecidableEq

/-- Python truthiness of a decoded value (`bool(v)`). -/
def pyTruthy : Json → Bool
  | .null => false
  | .bool b => b
  | .num q => q != 0
  | .str s => s != ""
  | .arr items => !items.isEmpty
  | .obj fields => !fields.isEmpty

/-- Python comparison `v == 200` on a decoded value.  Only a number equal to
`200` compares true; in particular `True == 200` is false in Python. -/
def pyEq200 : Json → Bool
  | .num q => q == 200
  | _ => false

/-- Python `v.get (k)`: on a dict it yields the value, or `None` for an
absent key; on any other value (including `None`) it raises AttributeError. -/
def pyGet (v : Json) (k : String) : Except PyError Json :=
  match v with
  | .obj fields => .ok ((fields.lookup k).getD .null)
  | _ => .error .attrError

/-- Python subscript `v[k]` with a string key: KeyError on a dict without the
key, TypeError on anything that is not a dict. -/
def pyIndex (v : Json) (k : String) : Except PyError Json :=
  match v with
  | .obj fields =>
    match fields.lookup k with
    | some w => .ok w
    | none => .error .keyError
  | _ => .error .typeError

/-- Contiguous-substring test on character lists, modelling Python's
`needle in haystack` for strings. -/
def charsContain (needle : List Char) : List Char → Bool
  | [] => needle.isEmpty
  | c :: rest => needle.isPrefixOf (c :: rest) || charsContain needle rest

/-- Python containment test `k in v` for a string `k`: key test on a dict,
membership on a list, substring test on a string, TypeError otherwise. -/
def pyContains (v : Json) (k : String) : Except PyError Bool :=
  match v with
  | .obj fields => .ok (fields.any (fun p => p.1 == k))
  | .arr items => .ok (items.any (fun item => item == Json.str k))
  | .str s => .ok (charsContain k.data s.data)
  | _ => .error .typeError

/-- Python iteration `for x in v`: a list yields its items, a dict its keys,
a string its characters as one-character strings; anything else raises
TypeError. -/
def pyIterate : Json → Except PyError (List Json)
  | .arr items => .ok items
  | .obj fields => .ok (fields.map (fun p => Json.str p.1))
  | .str s => .ok (s.data.map (fun c => Json.str (String.singleton c)))
  | _ => .error .typeError

/-- Python dict assignment `d[k] = v` on an association list with unique
keys: the value of the binding already carrying the key is replaced in
place, otherwise the binding is appended at the end (Python dicts preserve
insertion order). -/
def pySetItem {α β : Type} [DecidableEq α] : List (α × β) → α → β → List (α × β)
  | [], k, v => [(k, v)]
  | (k1, v1) :: rest, k, v =>
    if k1 = k then (k1, v) :: rest else (k1, v1) :: pySetItem rest k v

/-- Truth value of the Python condition
`resp and resp.get ("status") and resp.get ("status") == 200`
used both by `login` and by `get_device_list`, propagating the
AttributeError that `.get` raises on a truthy non-dict value. -/
def statusOk200 (resp : Json) : Except PyError Bool :=
  if pyTruthy resp then do
    let s1 ← pyGet resp "status"
    if pyTruthy s1 then do
      let s2 ← pyGet resp "status"
      pure (pyEq200 s2)
    else
      pure false
  else
    pure false

/-- Truth value of the Python condition `resp and resp.get ("status")` of the
second branch of `login`. -/
def statusTruthy (resp : Json) : Except PyError Bool :=
  if pyTruthy resp then do
    let s ← pyGet resp "status"
    pure (pyTruthy s)
  else
    pure false

/-- Result of `login`: the returned boolean together with the value stored in
`self.token` when the call returns. -/
structure LoginResult where
  ret : Bool
  token : Json
  deriving DecidableEq

/-- MySmartBikeWebApi.login, as a function of the decoded login response
(the value `_request` returned; `Json.null` models `None`) and of the token
stored before the call.  Mirrors:

    if login_response and login_response.get("status") and login_response.get("status") == 200:
        self.token = login_response.get("data").get("token")
        return True
    if login_response and login_response.get("status"):
        raise MySmartBikeAuthException(login_response)
    return False
-/
def login (login_response : Json) (token : Json) : Except PyError LoginResult := do
  let cond ← statusOk200 login_response
  if cond then do
    let d ← pyGet login_response "data"
    let t ← pyGet d "token"
    pure ⟨true, t⟩
  else do
    let cond2 ← statusTruthy login_response
    if cond2 then
      throw (.authException login_response)
    else
      pure ⟨false, token⟩

/-! ### datetime.strptime with format "%Y-%m-%d %H:%M:%S" -/

/-- Date-time value produced by `datetime.strptime`. -/
structure PyDatetime where
  year : Nat
  month : Nat
  day : Nat
  hour : Nat
  minute : Nat
  second : Nat
  deriving DecidableEq

/-- Value of a decimal digit character, `none` for a non-digit. -/
def digitVal (c : Char) : Option Nat :=
  if c.isDigit then some (c.toNat - 48) else none

/-- Reads the exactly-four-digit year field of `%Y` (CPython matches it with
the regular expression `\d\d\d\d`). -/
def readYear : List Char → Option (Nat × List Char)
  | c1 :: c2 :: c3 :: c4 :: rest => do
    let d1 ← digitVal c1
    let d2 ← digitVal c2
    let d3 ← digitVal c3
    let d4 ← digitVal c4
    some (1000 * d1 + 100 * d2 + 10 * d3 + d4, rest)
  | _ => none

/-- Reads a one- or two-digit numeric field the way CPython's strptime
regular expressions do (`%m`, `%d`, `%H`, `%M`, `%S`): when two digits are
available the two-digit reading must satisfy `twoOk`, otherwise a single
digit is read and must satisfy `oneOk`.  Taking both digits when two are
available is faithful because every character that can follow one of these
fields in the modelled format is a non-digit. -/
def readField (twoOk oneOk : Nat → Bool) : List Char → Option (Nat × List Char)
  | c1 :: c2 :: rest =>
    match digitVal c1, digitVal c2 with
    | some d1, some d2 =>
      if twoOk (10 * d1 + d2) then some (10 * d1 + d2, rest) else none
    | some d1, none => if oneOk d1 then some (d1, c2 :: rest) else none
    | none, _ => none
  | [c1] =>
    match digitVal c1 with
    | some d1 => if oneOk d1 then some (d1, []) else none
    | none => none
  | [] => none

/-- Consumes one expected literal character. -/
def expectChar (c : Char) : List Char → Option (List Char)
  | c1 :: rest => if c1 = c then some rest else none
  | [] => none

/-- Python's regex class `\s` restricted to ASCII characters: horizontal
tab through carriage return (0x09-0x0D), the separator control characters
0x1C-0x1F, and the space 0x20. -/
def pyIsSpace (c : Char) : Bool :=
  (9 ≤ c.toNat && c.toNat ≤ 13) || (28 ≤ c.toNat && c.toNat ≤ 31) || c.toNat = 32

/-- Consumes one or more whitespace characters, greedily: CPython's strptime
replaces every whitespace run of the format string with `\s+` before
compiling it, so the literal space of the format matches any non-empty
whitespace run.  Greedy consumption is faithful because the field that
follows starts with a digit, which is never whitespace. -/
def expectSpaces : List Char → Option (List Char)
  | [] => none
  | c :: rest => if pyIsSpace c then some (rest.dropWhile pyIsSpace) else none

/-- Whether every character of the string is ASCII.  On ASCII strings the
strptime model below is exact; outside ASCII, CPython's `\d` additionally
matches other Unicode decimal digits. -/
def isAsciiStr (s : String) : Bool := s.data.all (fun c => c.toNat < 128)

/-- Gregorian leap-year rule used by `datetime`. -/
def isLeapYear (y : Nat) : Bool :=
  (y % 4 == 0 && y % 100 != 0) || y % 400 == 0

/-- Number of days of a month as validated by the `datetime` constructor. -/
def daysInMonth (y m : Nat) : Nat :=
  if m = 2 then (if isLeapYear y then 29 else 28)
  else if m = 4 ∨ m = 6 ∨ m = 9 ∨ m = 11 then 30
  else 31

/-- datetime.strptime (s, "%Y-%m-%d %H:%M:%S") on a string argument, as
CPython implements it: `%Y` is exactly four digits, the other fields are one
or two digits constrained by the strptime regular expressions (month 1-12,
day 1-31, hour 0-23, minute 0-59, second 0-61), the literal dashes and
colons must match, the format's space matches one or more whitespace
characters (CPython compiles it to `\s+`), the whole string must be
consumed, and the resulting values must form a valid `datetime` (year at
least 1, day within the month, second at most 59); otherwise the call
raises ValueError, modelled as `none`.  Digits are modelled as ASCII, so
the model is exact on ASCII strings. -/
def strptimeYmdHms (s : String) : Option PyDatetime := do
  let (y, r1) ← readYear s.data
  let r2 ← expectChar '-' r1
  let (mo, r3) ← readField (fun v => 1 ≤ v && v ≤ 12) (fun v => 1 ≤ v) r2
  let r4 ← expectChar '-' r3
  let (d, r5) ← readField (fun v => 1 ≤ v && v ≤ 31) (fun v => 1 ≤ v) r4
  let r6 ← expectSpaces r5
  let (h, r7) ← readField (fun v => v ≤ 23) (fun _ => true) r6
  let r8 ← expectChar ':' r7
  let (mi, r9) ← readField (fun v => v ≤ 59) (fun _ => true) r8
  let r10 ← expectChar ':' r9
  let (sec, r11) ← readField (fun v => v ≤ 61) (fun _ => true) r10
  if r11.isEmpty && 1 ≤ y && d ≤ daysInMonth y mo && sec ≤ 59 then
    some ⟨y, mo, d, h, mi, sec⟩
  else
    none

/-- Python `datetime.strptime (arg, "%Y-%m-%d %H:%M:%S")` on an arbitrary
decoded value: TypeError on a non-string argument (in particular on `None`
from `dict.get`), ValueError when the string does not match the format. -/
def pyStrptime : Json → Except PyError PyDatetime
  | .str s =>
    match strptimeYmdHms s with
    | some dt => .ok dt
    | none => .error .valueError
  | _ => .error .typeError

/-! ### The device record and `_build_device_list` -/

/-- Modelled from the spec: the `MySmartBikeDevice` record (its defining
module `device.py` is not part of the available sources).  Per the spec the
record is a plain value object holding, in the order of the positional
constructor arguments used by `_build_device_list`: serial, odometry, brand,
model, longitude, latitude, the parsed last-position timestamp, state of
charge and remaining capacity. -/
structure MySmartBikeDevice where
  serial : Json
  odometry : Json
  brand : Json
  model_name : Json
  longitude : Json
  latitude : Json
  last_position_date : PyDatetime
  state_of_charge : Json
  remaining_capacity : Json
  deriving DecidableEq

/-- Body of the `object_tree` loop of `_build_device_list`:

    if "state_of_charge" in obj:
        state_of_charge = obj["state_of_charge"]
    if "remaining_capacity" in obj:
        remaining_capacity = obj["remaining_capacity"]

The accumulator holds the current `(state_of_charge, remaining_capacity)`
pair, with `Json.null` standing for Python `None`. -/
def scanStep (acc : Json × Json) (node : Json) : Except PyError (Json × Json) := do
  let has_soc ← pyContains node "state_of_charge"
  let soc ← if has_soc then pyIndex node "state_of_charge" else pure acc.1
  let has_rc ← pyContains node "remaining_capacity"
  let rc ← if has_rc then pyIndex node "remaining_capacity" else pure acc.2
  pure (soc, rc)

/-- Linear scan of the nodes of an `object_tree` (the `for obj in
rbike["object_tree"]` loop). -/
def scanTree : List Json → (Json × Json) → Except PyError (Json × Json)
  | [], acc => .ok acc
  | node :: rest, acc => do
    let acc2 ← scanStep acc node
    scanTree rest acc2

/-- Processing of one device entry of the loop body of `_build_device_list`:
the `object_tree` scan followed by the `MySmartBikeDevice` construction, with
the constructor arguments evaluated in Python's left-to-right order. -/
def processBike (rbike : Json) : Except PyError MySmartBikeDevice := do
  let tree ← pyIndex rbike "object_tree"
  let nodes ← pyIterate tree
  let (soc, rc) ← scanTree nodes (.null, .null)
  let serial ← pyIndex rbike "serial"
  let odometry ← pyIndex rbike "odometry"
  let object_model ← pyIndex rbike "object_model"
  let brand_obj ← pyIndex object_model "brand"
  let brand ← pyIndex brand_obj "alias"
  let om2 ← pyGet rbike "object_model"
  let model_name ← pyGet om2 "model_name"
  let longitude ← pyGet rbike "longitude"
  let latitude ← pyGet rbike "latitude"
  let lpd ← pyGet rbike "last_position_date"
  let dt ← pyStrptime lpd
  pure ⟨serial, odometry, brand, model_name, longitude, latitude, dt, soc, rc⟩

/-- Device mapping under construction: a Python dict keyed by the (arbitrary
decoded) `serial` value of each device. -/
abbrev DeviceMap := List (Json × MySmartBikeDevice)

/-- Main loop of `_build_device_list`: process each entry and store it under
`root_objects[root_object.serial]`. -/
def buildLoop : List Json → DeviceMap → Except PyError DeviceMap
  | [], root_objects => .ok root_objects
  | rbike :: rest, root_objects => do
    let d ← processBike rbike
    buildLoop rest (pySetItem root_objects d.serial d)

/-- MySmartBikeWebApi._build_device_list: iterates `data["data"]` and builds
the serial-keyed device mapping. -/
def _build_device_list (data : Json) : Except PyError DeviceMap := do
  let dataField ← pyIndex data "data"
  let rbikes ← pyIterate dataField
  buildLoop rbikes []

/-- MySmartBikeWebApi.get_device_list, as a function of the decoded list
response (the value `_request` returned; `Json.null` models `None`).
Mirrors:

    if _response and _response.get("status") and _response.get("status") == 200:
        return await self._build_device_list(_response)
    return {}
-/
def get_device_list (response : Json) : Except PyError DeviceMap := do
  let cond ← statusOk200 response
  if cond then
    _build_device_list response
  else
    pure []

/-! ### Header construction of `_request` -/

/-- Python `d.update (u)` on a headers dict: every binding of `u` is written
into `d` in order, replacing the value of a key already present. -/
def headerUpdate (d upd : List (String × String)) : List (String × String) :=
  upd.foldl (fun acc p => pySetItem acc p.1 p.2) d

/-- Modelled from the spec: the fixed protocol header set that `_request`
writes over the caller-supplied headers.  The concrete values of
`API_USER_AGENT`, `API_X_THEME`, `API_X_APP`, `API_X_PLATFORM` and
`API_X_VERSION` live in `const.py`, which is not part of the available
sources, so they are taken as parameters; `Accept` and `Accept-Language`
values are literal in `webapi.py`. -/
def fixedHeaders (userAgent xTheme xApp xPlatform xVersion : String) :
    List (String × String) :=
  [("Accept", "application/json"),
   ("User-Agent", userAgent),
   ("Accept-Language", "de-DE"),
   ("X-Theme", xTheme),
   ("X-App", xApp),
   ("X-Platform", xPlatform),
   ("X-Version", xVersion)]

/-- Header set attached to the outgoing request by `_request`, as a function
of the caller-supplied headers dict: `kwargs["headers"].update({...fixed...})`. -/
def requestHeaders (caller : List (String × String))
    (userAgent xTheme xApp xPlatform xVersion : String) : List (String × String) :=
  headerUpdate caller (fixedHeaders userAgent xTheme xApp xPlatform xVersion)

/-! ### Spec-side predicates and concrete scenario inputs -/

/-- Field `k` of a decoded JSON object: `none` when the key is absent or the
value is not an object.  Used to phrase the specification's claims, in
contrast to the executable Python accessors above. -/
def specField (v : Json) (k : String) : Option Json :=
  match v with
  | .obj fields => fields.lookup k
  | _ => none

/-- Whether a decoded value is a dict. -/
def isDict : Json → Bool
  | .obj _ => true
  | _ => false

/-- Claim C1 in the specification's words: `login` returns `true` iff the
decoded response has `status == 200` and a non-empty `data.token` string,
and on returning `true` the stored token equals exactly that `data.token`
value. -/
def loginTokenClaim : Prop :=
  ∀ (resp token : Json) (r : LoginResult), login resp token = .ok r →
    ((r.ret = true ↔
        ((∃ st, specField resp "status" = some st ∧ pyEq200 st = true) ∧
          ∃ d s, specField resp "data" = some d ∧
            specField d "token" = some (.str s) ∧ s ≠ "")) ∧
      (r.ret = true →
        ∃ d t, specField resp "data" = some d ∧ specField d "token" = some t ∧
          r.token = t))

/-- Success condition that `login` actually implements: the decoded response
carries a `status` field equal to 200, and its `data` field — as read by
`dict.get`, hence `None` when absent — is a dict. -/
def loginSuccessCond (resp : Json) : Prop :=
  (∃ st, specField resp "status" = some st ∧ pyEq200 st = true) ∧
  ∃ dfields, (specField resp "data").getD .null = .obj dfields

/-- Token value a successful `login` stores:
`login_response.get ("data").get ("token")` under Python `.get` semantics. -/
def tokenOf (resp : Json) : Json :=
  match (specField resp "data").getD .null with
  | .obj dfields => (dfields.lookup "token").getD .null
  | _ => .null

/-- Claim C3 in the specification's words: whenever a `status` field is
present with a value other than 200, `login` raises the auth exception
carrying the raw response. -/
def authRaiseClaim : Prop :=
  ∀ (resp token st : Json),
    specField resp "status" = some st → pyEq200 st = false →
    login resp token = .error (.authException resp)

/-- Whether an `object_tree` node is a dict carrying key `k`. -/
def hasKeyB (node : Json) (k : String) : Bool :=
  match node with
  | .obj fields => (fields.lookup k).isSome
  | _ => false

/-- Value under `k` of a dict node, `none` for other nodes. -/
def keyValOpt (node : Json) (k : String) : Option Json :=
  match node with
  | .obj fields => fields.lookup k
  | _ => none

/-- Value supplied by the node of `nodes` carrying key `k` that appears
latest in the list, `none` when no node carries the key. -/
def lastKeyValue (nodes : List Json) (k : String) : Option Json :=
  (nodes.reverse.find? (fun n => hasKeyB n k)).bind (fun n => keyValOpt n k)

/-- Decoded login response with status 200 and an empty `data.token`
string. -/
def emptyTokenResponse : Json :=
  .obj [("status", .num 200), ("data", .obj [("token", .str "")])]

/-- Decoded response whose `status` field is present with the value 0. -/
def statusZeroResponse : Json := .obj [("status", .num 0)]

/-- Decoded response whose `status` field is 404. -/
def statusNotOkResponse : Json := .obj [("status", .num 404)]

/-- Decoded response with status 200 and no `data` field. -/
def missingDataResponse : Json := .obj [("status", .num 200)]

/-- Device entry of the specification's round-trip scenario. -/
def exampleEntry : Json :=
  .obj [("serial", .str "BK1"), ("odometry", .num 120),
        ("object_model", .obj [("brand", .obj [("alias", .str "Acme")]),
                               ("model_name", .str "X1")]),
        ("longitude", .num 7.1), ("latitude", .num 50.2),
        ("last_position_date", .str "2024-01-01 10:00:00"),
        ("object_tree", .arr [.obj [("state_of_charge", .num 80)]])]

/-- Example list payload of the specification's round-trip scenario. -/
def examplePayload : Json :=
  .obj [("status", .num 200), ("data", .arr [exampleEntry])]

/-- Device record the round-trip scenario expects. -/
def exampleDevice : MySmartBikeDevice :=
  ⟨.str "BK1", .num 120, .str "Acme", .str "X1", .num 7.1, .num 50.2,
   ⟨2024, 1, 1, 10, 0, 0⟩, .num 80, .null⟩

/-- Object-tree node list with two nodes carrying `state_of_charge` and two
nodes carrying `remaining_capacity`. -/
def twoNodeTreeNodes : List Json :=
  [.obj [("state_of_charge", .num 10)],
   .obj [("state_of_charge", .num 80), ("remaining_capacity", .num 55)],
   .obj [("remaining_capacity", .num 44)]]

/-- Device entry whose `object_tree` has two nodes carrying
`state_of_charge` and two nodes carrying `remaining_capacity`. -/
def twoNodeEntry : Json :=
  .obj [("serial", .str "BK2"), ("odometry", .num 5),
        ("object_model", .obj [("brand", .obj [("alias", .str "Acme")]),
                               ("model_name", .str "X2")]),
        ("last_position_date", .str "2024-06-01 12:30:00"),
        ("object_tree", .arr twoNodeTreeNodes)]

/-- List payload holding the two example entries, with distinct serials. -/
def twoEntryPayload : Json :=
  .obj [("status", .num 200), ("data", .arr [exampleEntry, twoNodeEntry])]

/-- Device record built from `twoNodeEntry`. -/
def twoNodeDevice : MySmartBikeDevice :=
  ⟨.str "BK2", .num 5, .str "Acme", .str "X2", .null, .null,
   ⟨2024, 6, 1, 12, 30, 0⟩, .num 80, .num 44⟩

/-- Device entry whose `last_position_date` value is in the wrong format
`01/01/2024`. -/
def badDateEntry : Json :=
  .obj [("serial", .str "BK1"), ("odometry", .num 120),
        ("object_model", .obj [("brand", .obj [("alias", .str "Acme")]),
                               ("model_name", .str "X1")]),
        ("last_position_date", .str "01/01/2024"),
        ("object_tree", .arr [])]

/-- List payload whose single entry has a `last_position_date` value in the
wrong format `01/01/2024`. -/
def badDatePayload : Json :=
  .obj [("status", .num 200), ("data", .arr [badDateEntry])]

/-- Decidable equality of `Except` results, used to evaluate the modelled
operations on concrete inputs. -/
instance {ε α : Type} [DecidableEq ε] [DecidableEq α] : DecidableEq (Except ε α)
  | .ok x, .ok y =>
    match decEq x y with
    | isTrue h => isTrue (h ▸ rfl)
    | isFalse h => isFalse (fun hh => h (Except.ok.inj hh))
  | .error x, .error y =>
    match decEq x y with
    | isTrue h => isTrue (h ▸ rfl)
    | isFalse h => isFalse (fun hh => h (Except.error.inj hh))
  | .ok _, .error _ => isFalse nofun
  | .error _, .ok _ => isFalse nofun

/-! ### Association-list lemmas about the Python dict model -/

section AssocList

variable {α β : Type} [DecidableEq α]

/-- Python dict assignment then lookup: the assigned key now maps to the new
value and every other key is untouched. -/
lemma lookup_pySetItem (m : List (α × β)) (k0 k : α) (v : β) :
    (pySetItem m k0 v).lookup k = if k0 = k then some v else m.lookup k := by
  induction m with
  | nil =>
    by_cases h : k0 = k
    · subst h
      simp [pySetItem, List.lookup]
    · have h1 : (k == k0) = false := by simp [Ne.symm h]
      simp [pySetItem, List.lookup, h1, h]
  | cons p rest ih =>
    obtain ⟨k1, v1⟩ := p
    by_cases h0 : k1 = k0
    · subst h0
      rw [pySetItem, if_pos rfl]
      by_cases h : k1 = k
      · subst h
        simp [List.lookup]
      · have h1 : (k == k1) = false := by simp [Ne.symm h]
        have hk : ¬ k1 = k := h
        simp [List.lookup, h1, hk]
    · rw [pySetItem, if_neg h0]
      by_cases h : k = k1
      · subst h
        have hk : ¬ k0 = k := fun hh => h0 hh.symm
        simp [List.lookup, hk]
      · have h1 : (k == k1) = false := by simp [h]
        simp [List.lookup, h1, ih]

/-- Assigning an absent key appends, so it grows the dict by one binding. -/
lemma length_pySetItem_of_lookup_none (m : List (α × β)) (k0 : α) (v : β)
    (h : m.lookup k0 = none) :
    (pySetItem m k0 v).length = m.length + 1 := by
  induction m with
  | nil => rfl
  | cons p rest ih =>
    obtain ⟨k1, v1⟩ := p
    by_cases h0 : k1 = k0
    · subst h0
      simp [List.lookup] at h
    · have h1 : (k0 == k1) = false := by simp [Ne.symm h0]
      rw [List.lookup, h1] at h
      rw [pySetItem, if_neg h0]
      simp [ih h]

end AssocList

/-! ### Reduction lemmas for the `Except` monad -/

@[simp] lemma ok_bind {ε α β : Type} (a : α) (f : α → Except ε β) :
    (Except.ok a >>= f) = f a := rfl

@[simp] lemma error_bind {ε α β : Type} (e : ε) (f : α → Except ε β) :
    ((Except.error e : Except ε α) >>= f) = Except.error e := rfl

@[simp] lemma pure_eq_ok {ε α : Type} (a : α) : (pure a : Except ε α) = .ok a := rfl

@[simp] lemma throw_eq_error {ε α : Type} (e : ε) :
    (throw e : Except ε α) = .error e := rfl

/-! ### Characterization of the shared status condition and of `login` -/

lemma pyEq200_eq_true_iff (j : Json) : pyEq200 j = true ↔ j = .num 200 := by
  cases j <;> simp [pyEq200]

lemma pyTruthy_of_pyEq200 (j : Json) (h : pyEq200 j = true) : pyTruthy j = true := by
  rw [pyEq200_eq_true_iff] at h
  subst h
  decide

lemma statusOk200_obj (fields : List (String × Json)) :
    statusOk200 (.obj fields) = .ok (pyEq200 ((fields.lookup "status").getD .null)) := by
  by_cases hf : fields = []
  · subst hf; rfl
  · have htr : pyTruthy (.obj fields) = true := by
      simp [pyTruthy, hf]
    simp only [statusOk200, htr, if_true, pyGet, ok_bind]
    by_cases hs : pyTruthy ((fields.lookup "status").getD .null) = true
    · simp [hs]
    · have h200 : pyEq200 ((fields.lookup "status").getD .null) = false := by
        rcases h : pyEq200 ((fields.lookup "status").getD .null) with _ | _
        · rfl
        · exact absurd (pyTruthy_of_pyEq200 _ h) hs
      simp [hs, h200]

lemma statusTruthy_obj (fields : List (String × Json)) :
    statusTruthy (.obj fields) = .ok (pyTruthy ((fields.lookup "status").getD .null)) := by
  by_cases hf : fields = []
  · subst hf; rfl
  · have htr : pyTruthy (.obj fields) = true := by
      simp [pyTruthy, hf]
    simp [statusTruthy, htr, pyGet]

/-- Full characterization of `login` on a dict response. -/
lemma login_obj (fields : List (String × Json)) (token : Json) :
    login (.obj fields) token =
      (if pyEq200 ((fields.lookup "status").getD .null) then
        (match (fields.lookup "data").getD .null with
         | .obj dfields => .ok ⟨true, (dfields.lookup "token").getD .null⟩
         | _ => .error .attrError)
      else if pyTruthy ((fields.lookup "status").getD .null) then
        .error (.authException (.obj fields))
      else
        .ok ⟨false, token⟩) := by
  unfold login
  rw [statusOk200_obj]
  simp only [ok_bind]
  by_cases h200 : pyEq200 ((fields.lookup "status").getD .null) = true
  · simp only [h200, if_true, pyGet, ok_bind]
    rcases hd : (fields.lookup "data").getD .null with _ | b | q | s | l | o <;>
      simp [pyGet, hd]
  · rw [Bool.not_eq_true] at h200
    simp only [h200, Bool.false_eq_true, if_false]
    rw [statusTruthy_obj]
    simp only [ok_bind]
    by_cases hs : pyTruthy ((fields.lookup "status").getD .null) = true <;>
      simp [hs]

/-- Behaviour of `login` on a non-dict response: an AttributeError when the
value is truthy (the condition calls `.get` on it), a plain `False` return
otherwise. -/
lemma login_not_dict (resp token : Json) (hnd : isDict resp = false) :
    login resp token =
      (if pyTruthy resp then .error .attrError else .ok ⟨false, token⟩) := by
  by_cases htr : pyTruthy resp = true
  · have hget : pyGet resp "status" = .error .attrError := by
      cases resp <;> simp [pyGet, isDict] at hnd ⊢
    unfold login statusOk200
    simp [htr, hget]
  · rw [Bool.not_eq_true] at htr
    unfold login statusOk200 statusTruthy
    simp [htr]

/-- Behaviour of `get_device_list` on a dict response. -/
lemma get_device_list_obj (fields : List (String × Json)) :
    get_device_list (.obj fields) =
      (if pyEq200 ((fields.lookup "status").getD .null) then
        _build_device_list (.obj fields)
      else
        .ok []) := by
  unfold get_device_list
  rw [statusOk200_obj]
  simp only [ok_bind]
  by_cases h200 : pyEq200 ((fields.lookup "status").getD .null) = true <;>
    simp [h200]

/-! ### Characterization of the `object_tree` scan -/

lemma any_key_eq_lookup_isSome {β : Type} (m : List (String × β)) (k : String) :
    m.any (fun p => p.1 == k) = (m.lookup k).isSome := by
  induction m with
  | nil => rfl
  | cons p rest ih =>
    obtain ⟨k1, v1⟩ := p
    by_cases h : k1 = k
    · subst h
      simp [List.lookup]
    · have h1 : (k1 == k) = false := by simp [h]
      have h2 : (k == k1) = false := by simp [Ne.symm h]
      simp [List.lookup, h1, h2, ih]

lemma or_getD {α : Type} (a b : Option α) (c : α) :
    (a.or b).getD c = a.getD (b.getD c) := by
  cases a <;> simp

lemma hasKeyB_eq_isSome (node : Json) (k : String) :
    hasKeyB node k = (keyValOpt node k).isSome := by
  cases node <;> simp [hasKeyB, keyValOpt]

lemma lastKeyValue_nil (k : String) : lastKeyValue [] k = none := rfl

lemma lastKeyValue_cons (node : Json) (rest : List Json) (k : String) :
    lastKeyValue (node :: rest) k = (lastKeyValue rest k).or (keyValOpt node k) := by
  unfold lastKeyValue
  rw [List.reverse_cons, List.find?_append]
  cases hf : rest.reverse.find? (fun n => hasKeyB n k) with
  | some n =>
    have hp := List.find?_some hf
    simp only [hasKeyB_eq_isSome] at hp
    obtain ⟨v, hv⟩ := Option.isSome_iff_exists.mp hp
    simp [hv]
  | none =>
    by_cases hk : hasKeyB node k = true
    · simp [List.find?, hk]
    · rw [Bool.not_eq_true] at hk
      have hnone : keyValOpt node k = none := by
        rw [hasKeyB_eq_isSome] at hk
        simpa using hk
      simp [List.find?, hk, hnone]

/-- Effect of one loop body iteration under success: each of the two fields
is overwritten by the node's value exactly when the node carries the key. -/
lemma scanStep_ok (acc acc2 : Json × Json) (node : Json)
    (h : scanStep acc node = .ok acc2) :
    acc2.1 = (keyValOpt node "state_of_charge").getD acc.1 ∧
    acc2.2 = (keyValOpt node "remaining_capacity").getD acc.2 := by
  cases node with
  | null => simp [scanStep, pyContains] at h
  | bool b => simp [scanStep, pyContains] at h
  | num q => simp [scanStep, pyContains] at h
  | str s =>
    by_cases h1 : charsContain "state_of_charge".data s.data = true
    · simp [scanStep, pyContains, h1, pyIndex] at h
    · rw [Bool.not_eq_true] at h1
      by_cases h2 : charsContain "remaining_capacity".data s.data = true
      · simp [scanStep, pyContains, h1, h2, pyIndex] at h
      · rw [Bool.not_eq_true] at h2
        simp [scanStep, pyContains, h1, h2, keyValOpt] at h ⊢
        simp [← h]
  | arr items =>
    by_cases h1 : items.any (fun item => item == Json.str "state_of_charge") = true
    · simp [scanStep, pyContains, h1, pyIndex] at h
    · rw [Bool.not_eq_true] at h1
      by_cases h2 : items.any (fun item => item == Json.str "remaining_capacity") = true
      · simp [scanStep, pyContains, h1, h2, pyIndex] at h
      · rw [Bool.not_eq_true] at h2
        simp [scanStep, pyContains, h1, h2, keyValOpt] at h ⊢
        simp [← h]
  | obj fields =>
    have hsoc := any_key_eq_lookup_isSome fields "state_of_charge"
    have hrc := any_key_eq_lookup_isSome fields "remaining_capacity"
    cases hls : fields.lookup "state_of_charge" with
    | some v1 =>
      rw [hls] at hsoc
      cases hlr : fields.lookup "remaining_capacity" with
      | some v2 =>
        rw [hlr] at hrc
        simp [scanStep, pyContains, hsoc, hrc, pyIndex, hls, hlr, keyValOpt] at h ⊢
        simp [← h]
      | none =>
        rw [hlr] at hrc
        simp [scanStep, pyContains, hsoc, hrc, pyIndex, hls, keyValOpt, hlr] at h ⊢
        simp [← h]
    | none =>
      rw [hls] at hsoc
      cases hlr : fields.lookup "remaining_capacity" with
      | some v2 =>
        rw [hlr] at hrc
        simp [scanStep, pyContains, hsoc, hrc, pyIndex, hlr, keyValOpt, hls] at h ⊢
        simp [← h]
      | none =>
        rw [hlr] at hrc
        simp [scanStep, pyContains, hsoc, hrc, keyValOpt, hls, hlr] at h ⊢
        simp [← h]

/-- Characterization of the full `object_tree` scan: under success each
result component is the value of the latest node carrying the respective
key, or the initial accumulator component when no node carries it. -/
lemma scanTree_char (nodes : List Json) :
    ∀ (acc res : Json × Json), scanTree nodes acc = .ok res →
      res.1 = (lastKeyValue nodes "state_of_charge").getD acc.1 ∧
      res.2 = (lastKeyValue nodes "remaining_capacity").getD acc.2 := by
  induction nodes with
  | nil =>
    intro acc res h
    have : acc = res := by simpa [scanTree] using h
    subst this
    simp [lastKeyValue_nil]
  | cons node rest ih =>
    intro acc res h
    unfold scanTree at h
    cases h2 : scanStep acc node with
    | error e => rw [h2] at h; simp at h
    | ok acc2 =>
      rw [h2] at h
      simp only [ok_bind] at h
      obtain ⟨hs, hr⟩ := scanStep_ok _ _ _ h2
      obtain ⟨ihs, ihr⟩ := ih acc2 res h
      constructor
      · rw [ihs, lastKeyValue_cons, or_getD, hs]
      · rw [ihr, lastKeyValue_cons, or_getD, hr]

/-! ### Inversion of `processBike` and characterization of `buildLoop` -/

lemma pyStrptime_ok_inv (v : Json) (dt : PyDatetime) (h : pyStrptime v = .ok dt) :
    ∃ s, v = .str s ∧ strptimeYmdHms s = some dt := by
  cases v with
  | str s =>
    refine ⟨s, rfl, ?_⟩
    cases hs : strptimeYmdHms s with
    | none => simp [pyStrptime, hs] at h
    | some dt2 =>
      simp [pyStrptime, hs] at h
      rw [h]
  | null => simp [pyStrptime] at h
  | bool b => simp [pyStrptime] at h
  | num q => simp [pyStrptime] at h
  | arr items => simp [pyStrptime] at h
  | obj fields => simp [pyStrptime] at h

/-- Inversion of a successful `processBike`: the scan on the entry's
`object_tree` succeeded and produced the record's two scan fields, the
record's serial is the entry's `serial` value, and the record's timestamp
comes from a successful strptime on the entry's `last_position_date`
string. -/
lemma processBike_inv (rbike : Json) (d : MySmartBikeDevice)
    (h : processBike rbike = .ok d) :
    (∃ tree nodes, pyIndex rbike "object_tree" = .ok tree ∧
        pyIterate tree = .ok nodes ∧
        scanTree nodes (.null, .null) = .ok (d.state_of_charge, d.remaining_capacity)) ∧
    pyIndex rbike "serial" = .ok d.serial ∧
    (∃ s, pyGet rbike "last_position_date" = .ok (.str s) ∧
        strptimeYmdHms s = some d.last_position_date) := by
  unfold processBike at h
  cases h1 : pyIndex rbike "object_tree" with
  | error e => rw [h1] at h; simp at h
  | ok tree =>
  rw [h1] at h
  simp only [ok_bind] at h
  cases h2 : pyIterate tree with
  | error e => rw [h2] at h; simp at h
  | ok nodes =>
  rw [h2] at h
  simp only [ok_bind] at h
  cases h3 : scanTree nodes (.null, .null) with
  | error e => rw [h3] at h; simp at h
  | ok socrc =>
  rw [h3] at h
  simp only [ok_bind] at h
  obtain ⟨soc, rc⟩ := socrc
  cases h4 : pyIndex rbike "serial" with
  | error e => rw [h4] at h; simp at h
  | ok serialv =>
  rw [h4] at h
  simp only [ok_bind] at h
  cases h5 : pyIndex rbike "odometry" with
  | error e => rw [h5] at h; simp at h
  | ok odov =>
  rw [h5] at h
  simp only [ok_bind] at h
  cases h6 : pyIndex rbike "object_model" with
  | error e => rw [h6] at h; simp at h
  | ok omv =>
  rw [h6] at h
  simp only [ok_bind] at h
  cases h7 : pyIndex omv "brand" with
  | error e => rw [h7] at h; simp at h
  | ok brandobjv =>
  rw [h7] at h
  simp only [ok_bind] at h
  cases h8 : pyIndex brandobjv "alias" with
  | error e => rw [h8] at h; simp at h
  | ok brandv =>
  rw [h8] at h
  simp only [ok_bind] at h
  cases h9 : pyGet rbike "object_model" with
  | error e => rw [h9] at h; simp at h
  | ok om2v =>
  rw [h9] at h
  simp only [ok_bind] at h
  cases h10 : pyGet om2v "model_name" with
  | error e => rw [h10] at h; simp at h
  | ok modelv =>
  rw [h10] at h
  simp only [ok_bind] at h
  cases h11 : pyGet rbike "longitude" with
  | error e => rw [h11] at h; simp at h
  | ok lonv =>
  rw [h11] at h
  simp only [ok_bind] at h
  cases h12 : pyGet rbike "latitude" with
  | error e => rw [h12] at h; simp at h
  | ok latv =>
  rw [h12] at h
  simp only [ok_bind] at h
  cases h13 : pyGet rbike "last_position_date" with
  | error e => rw [h13] at h; simp at h
  | ok lpdv =>
  rw [h13] at h
  simp only [ok_bind] at h
  cases h14 : pyStrptime lpdv with
  | error e => rw [h14] at h; simp at h
  | ok dt =>
  rw [h14] at h
  simp only [ok_bind, pure_eq_ok] at h
  have hd := Except.ok.inj h
  subst hd
  obtain ⟨s, hsv, hstr⟩ := pyStrptime_ok_inv lpdv dt h14
  subst hsv
  exact ⟨⟨tree, nodes, rfl, h2, h3⟩, rfl, ⟨s, rfl, hstr⟩⟩

/-- Under entrywise success, `buildLoop` returns the fold of Python dict
assignments of the produced records, keyed by their serials. -/
lemma buildLoop_ok_of_forall (entries : List Json) (devs : List MySmartBikeDevice)
    (h : List.Forall₂ (fun e dd => processBike e = .ok dd) entries devs) :
    ∀ acc, buildLoop entries acc =
      .ok (devs.foldl (fun m dd => pySetItem m dd.serial dd) acc) := by
  induction h with
  | nil => intro acc; rfl
  | cons h1 hrest ih =>
    intro acc
    unfold buildLoop
    rw [h1]
    simp only [ok_bind]
    exact ih _

/-- Lookup in the fold of dict assignments: the latest record with a
matching serial wins, falling back to the initial accumulator. -/
lemma lookup_foldl_pySetItem (devs : List MySmartBikeDevice) :
    ∀ (acc : DeviceMap) (k : Json),
      (devs.foldl (fun m dd => pySetItem m dd.serial dd) acc).lookup k =
        (devs.reverse.find? (fun dd => dd.serial == k)).or (acc.lookup k) := by
  induction devs with
  | nil => intro acc k; simp
  | cons dd rest ih =>
    intro acc k
    rw [List.foldl_cons, ih, List.reverse_cons, List.find?_append]
    by_cases hk : dd.serial = k
    · subst hk
      cases hf : rest.reverse.find? (fun x => x.serial == dd.serial) with
      | some d2 => simp [hf, lookup_pySetItem, List.find?]
      | none => simp [hf, lookup_pySetItem, List.find?]
    · have hkb : (dd.serial == k) = false := by simp [hk]
      cases hf : rest.reverse.find? (fun x => x.serial == k) with
      | some d2 => simp [hf, lookup_pySetItem, List.find?, hkb, hk]
      | none => simp [hf, lookup_pySetItem, List.find?, hkb, hk]

/-- With pairwise-distinct serials, every dict assignment of the fold
appends, so the mapping has exactly one binding per record. -/
lemma length_foldl_pySetItem (devs : List MySmartBikeDevice) :
    ∀ acc : DeviceMap,
      (devs.map (fun dd => dd.serial)).Nodup →
      (∀ dd ∈ devs, acc.lookup dd.serial = none) →
      (devs.foldl (fun m dd => pySetItem m dd.serial dd) acc).length =
        acc.length + devs.length := by
  induction devs with
  | nil => intro acc _ _; simp
  | cons dd rest ih =>
    intro acc hnd hdisj
    rw [List.map_cons, List.nodup_cons] at hnd
    obtain ⟨hni, hnd2⟩ := hnd
    have hlen := length_pySetItem_of_lookup_none acc dd.serial dd
      (hdisj dd (List.mem_cons_self _ _))
    have hdisj2 : ∀ d2 ∈ rest, (pySetItem acc dd.serial dd).lookup d2.serial = none := by
      intro d2 hd2
      rw [lookup_pySetItem]
      have hne : dd.serial ≠ d2.serial :=
        fun he => hni (he ▸ List.mem_map_of_mem _ hd2)
      rw [if_neg hne]
      exact hdisj d2 (List.mem_cons_of_mem _ hd2)
    rw [List.foldl_cons, ih _ hnd2 hdisj2, hlen]
    simp only [List.length_cons]
    omega

/-- When some entry of the list cannot be processed, the whole loop fails
with an error (no partial mapping is ever returned). -/
lemma buildLoop_error_of_mem (rbike : Json)
    (hfail : ∀ dv, processBike rbike ≠ .ok dv) :
    ∀ entries : List Json, rbike ∈ entries →
      ∀ acc, ∃ e, buildLoop entries acc = .error e := by
  intro entries
  induction entries with
  | nil => intro hmem; exact absurd hmem (List.not_mem_nil _)
  | cons x rest ih =>
    intro hmem acc
    cases hx : processBike x with
    | error e => exact ⟨e, by unfold buildLoop; rw [hx]; rfl⟩
    | ok dv =>
      rcases List.mem_cons.mp hmem with hx2 | hmem2
      · subst hx2
        exact absurd hx (hfail dv)
      · obtain ⟨e, he⟩ := ih hmem2 (pySetItem acc dv.serial dv)
        refine ⟨e, ?_⟩
        unfold buildLoop
        rw [hx]
        simpa using he

/-! ### Helper lemmas tying `login` to the spec-side predicates -/

@[simp] lemma specField_obj (fields : List (String × Json)) (k : String) :
    specField (.obj fields) k = fields.lookup k := rfl

lemma isDict_true_obj (v : Json) (h : isDict v = true) : ∃ df, v = .obj df := by
  cases v <;> first
    | exact ⟨_, rfl⟩
    | simp [isDict] at h

lemma status_ex_iff (fields : List (String × Json)) :
    (∃ st, fields.lookup "status" = some st ∧ pyEq200 st = true) ↔
      pyEq200 ((fields.lookup "status").getD .null) = true := by
  cases hls : fields.lookup "status" with
  | none => simp [pyEq200_eq_true_iff]
  | some st => simp [pyEq200_eq_true_iff]

lemma login_obj_true_of_dict (fields : List (String × Json)) (token : Json)
    (dfields : List (String × Json))
    (h200 : pyEq200 ((fields.lookup "status").getD .null) = true)
    (hd : (fields.lookup "data").getD .null = .obj dfields) :
    login (.obj fields) token = .ok ⟨true, (dfields.lookup "token").getD .null⟩ := by
  rw [login_obj, hd]
  simp [h200]

lemma login_obj_attr_of_not_dict (fields : List (String × Json)) (token : Json)
    (h200 : pyEq200 ((fields.lookup "status").getD .null) = true)
    (hnd : isDict ((fields.lookup "data").getD .null) = false) :
    login (.obj fields) token = .error .attrError := by
  rw [login_obj]
  rcases hv : (fields.lookup "data").getD .null with _ | b | q | s | l | o <;>
    rw [hv] at hnd <;> simp [h200, isDict] at hnd ⊢

lemma login_obj_ne_true_of_not200 (fields : List (String × Json)) (token : Json)
    (h200 : pyEq200 ((fields.lookup "status").getD .null) = false) (t : Json) :
    login (.obj fields) token ≠ .ok ⟨true, t⟩ := by
  rw [login_obj, h200]
  by_cases hs : pyTruthy ((fields.lookup "status").getD .null) = true <;>
    simp [hs]

/-- When at least one node carries the key, the last-occurrence value is
some value, namely the default-completed one. -/
lemma lastKeyValue_isSome_of_countP (nodes : List Json) (k : String)
    (hcount : 2 ≤ nodes.countP (fun n => hasKeyB n k)) :
    lastKeyValue nodes k = some ((lastKeyValue nodes k).getD .null) := by
  have hpos : 0 < nodes.countP (fun n => hasKeyB n k) := by omega
  obtain ⟨n, hnmem, hnk⟩ := List.countP_pos_iff.mp hpos
  have hex : ∃ x ∈ nodes.reverse, hasKeyB x k = true :=
    ⟨n, List.mem_reverse.mpr hnmem, hnk⟩
  obtain ⟨n2, hn2f⟩ := Option.isSome_iff_exists.mp (List.find?_isSome.mpr hex)
  have hp := List.find?_some hn2f
  simp only [hasKeyB_eq_isSome] at hp
  obtain ⟨v, hv⟩ := Option.isSome_iff_exists.mp hp
  unfold lastKeyValue
  rw [hn2f]
  simp [hv]

/-! ### Claim theorems -/

/-- C2: for every outcome of the list request whose response `status` field
is anything other than 200 — including a transport failure yielding no
response at all (`None`, modelled as `Json.null`) — `get_device_list`
returns an empty mapping and does not raise. -/
theorem get_device_list_empty_on_non_200 (resp : Json)
    (h : resp = .null ∨ ∃ fields, resp = .obj fields ∧
      pyEq200 ((fields.lookup "status").getD .null) = false) :
    get_device_list resp = .ok [] := by
  rcases h with h | ⟨fields, rfl, h200⟩
  · subst h; rfl
  · rw [get_device_list_obj]
    simp [h200]

/-- Witness for C2: a response with status 404 yields the empty mapping. -/
theorem get_device_list_empty_on_non_200_witness :
    get_device_list statusNotOkResponse = .ok [] :=
  get_device_list_empty_on_non_200 statusNotOkResponse
    (Or.inr ⟨[("status", .num 404)], rfl, by decide⟩)

/-- C3 counterexample: the claim "login raises AuthError whenever a status
field is present and not 200" fails at the response `{"status": 0}`, where
`login` returns `False` because the truthiness test on the status short
circuits the second branch. -/
theorem auth_raise_claim_counterexample : ¬ authRaiseClaim := by
  intro h
  have hcall := h statusZeroResponse .null (.num 0) (by decide) (by decide)
  have hval : login statusZeroResponse .null = .ok ⟨false, .null⟩ := by decide
  exact Except.noConfusion (hval.symm.trans hcall)

/-- C3 amended: `login` raises the auth exception carrying the raw response
whenever the `status` field is present, truthy, and not equal to 200. -/
theorem login_raises_on_truthy_non_200_status (fields : List (String × Json))
    (token st : Json)
    (hst : fields.lookup "status" = some st)
    (htr : pyTruthy st = true)
    (hne : pyEq200 st = false) :
    login (.obj fields) token = .error (.authException (.obj fields)) := by
  rw [login_obj, hst]
  simp [htr, hne]

/-- Witness for C3: a response with status 404 makes `login` raise the auth
exception carrying the raw response. -/
theorem login_raises_on_truthy_non_200_status_witness :
    login statusNotOkResponse .null = .error (.authException statusNotOkResponse) :=
  login_raises_on_truthy_non_200_status [("status", .num 404)] .null (.num 404)
    (by decide) (by decide) (by decide)

/-- C7: on the specification's example payload, the device mapper returns
exactly the one-entry mapping from "BK1" to the expected record (odometry
120, brand "Acme", model "X1", position 7.1/50.2, timestamp
2024-01-01T10:00:00, state of charge 80, remaining capacity `None`). -/
theorem build_device_list_round_trip :
    _build_device_list examplePayload = .ok [(.str "BK1", exampleDevice)] := rfl

/-- C8: a payload containing a device entry whose ASCII `last_position_date`
string does not parse under the fixed format makes `_build_device_list` fail
with a propagated error — no record with a null timestamp and no partial
mapping is returned.  The ASCII hypothesis marks the domain on which the
embedded strptime coincides exactly with CPython's. -/
theorem bad_date_fails_build (payload rbike : Json) (entries : List Json)
    (rfields : List (String × Json)) (s : String)
    (hdata : pyIndex payload "data" = .ok (.arr entries))
    (hmem : rbike ∈ entries)
    (hrb : rbike = .obj rfields)
    (hlpd : rfields.lookup "last_position_date" = some (.str s))
    (_hasc : isAsciiStr s = true)
    (hbad : strptimeYmdHms s = none) :
    ∃ e, _build_device_list payload = .error e := by
  subst hrb
  have hfail : ∀ dv, processBike (.obj rfields) ≠ .ok dv := by
    intro dv hdv
    obtain ⟨-, -, s2, hs2, hstr2⟩ := processBike_inv _ _ hdv
    simp only [pyGet, hlpd, Option.getD_some] at hs2
    have hss : s = s2 := Json.str.inj (Except.ok.inj hs2)
    rw [← hss, hbad] at hstr2
    exact Option.noConfusion hstr2
  obtain ⟨e, he⟩ := buildLoop_error_of_mem _ hfail entries hmem []
  refine ⟨e, ?_⟩
  unfold _build_device_list
  rw [hdata]
  simp only [ok_bind, pyIterate]
  exact he

/-- Witness for C8: the ASCII date "01/01/2024" fails the format and the
build of the concrete payload holding it fails. -/
theorem bad_date_fails_build_witness :
    strptimeYmdHms "01/01/2024" = none ∧
    ∃ e, _build_device_list badDatePayload = .error e :=
  ⟨by decide,
   bad_date_fails_build badDatePayload badDateEntry [badDateEntry]
     [("serial", .str "BK1"), ("odometry", .num 120),
      ("object_model", .obj [("brand", .obj [("alias", .str "Acme")]),
                             ("model_name", .str "X1")]),
      ("last_position_date", .str "01/01/2024"),
      ("object_tree", .arr [])] "01/01/2024"
     (by decide) (by decide) rfl (by decide) (by decide) (by decide)⟩

/-- C9: `login` returns `False` without raising whenever the decoded
response contains no `status` field at all, including the case of no
response (`None`). -/
theorem login_false_on_absent_status (resp token : Json)
    (h : resp = .null ∨ ∃ fields, resp = .obj fields ∧
      fields.lookup "status" = none) :
    login resp token = .ok ⟨false, token⟩ := by
  rcases h with h | ⟨fields, rfl, hst⟩
  · subst h; rfl
  · rw [login_obj, hst]
    simp [pyEq200, pyTruthy]

/-- Witness for C9: with no response at all, `login` returns `False` and the
stored token is unchanged. -/
theorem login_false_on_absent_status_witness :
    login .null (.str "tok") = .ok ⟨false, .str "tok"⟩ :=
  login_false_on_absent_status .null (.str "tok") (Or.inl rfl)

/-- C10: when the decoded response has `status == 200` but its `data` field
is not a dict (in particular absent), `login` fails with an AttributeError
from the `.get` chain instead of returning a boolean. -/
theorem login_error_on_missing_data (fields : List (String × Json))
    (token st : Json)
    (hst : fields.lookup "status" = some st)
    (h200 : pyEq200 st = true)
    (hdata : isDict ((fields.lookup "data").getD .null) = false) :
    login (.obj fields) token = .error .attrError := by
  apply login_obj_attr_of_not_dict fields token _ hdata
  rw [hst]
  simpa using h200

/-- Witness for C10: `{"status": 200}` without a `data` field makes `login`
fail with an AttributeError. -/
theorem login_error_on_missing_data_witness :
    login missingDataResponse .null = .error .attrError :=
  login_error_on_missing_data [("status", .num 200)] .null (.num 200)
    (by decide) (by decide) (by decide)

/-- C1 counterexample: the claim "login returns true iff status is 200 and
`data.token` is a non-empty string" fails at the response
`{"status": 200, "data": {"token": ""}}`: `login` returns `True` and stores
the empty token, because the code never checks the token. -/
theorem login_token_claim_counterexample : ¬ loginTokenClaim := by
  intro h
  have hcall := h emptyTokenResponse .null ⟨true, .str ""⟩ (by decide)
  obtain ⟨-, d, s, hd, ht, hs⟩ := (hcall.1).mp rfl
  have hd0 : specField emptyTokenResponse "data" =
      some (.obj [("token", .str "")]) := by decide
  rw [hd0] at hd
  have hd2 : Json.obj [("token", .str "")] = d := Option.some.inj hd
  rw [← hd2] at ht
  have ht0 : specField (.obj [("token", .str "")]) "token" =
      some (.str "") := by decide
  rw [ht0] at ht
  exact hs (Json.str.inj (Option.some.inj ht)).symm

/-- C1 amended: `login` returns `True` iff the decoded response has
`status == 200` and a dict `data` field (token emptiness is not checked and
the token key need not be present); on returning `True` the stored token is
exactly `login_response.get ("data").get ("token")`, which may be `None` or
empty. -/
theorem login_true_iff_status200_and_data_dict (resp token : Json) :
    ((∃ t, login resp token = .ok ⟨true, t⟩) ↔ loginSuccessCond resp) ∧
    (∀ t, login resp token = .ok ⟨true, t⟩ → t = tokenOf resp) := by
  cases resp with
  | obj fields =>
    constructor
    · constructor
      · rintro ⟨t, ht⟩
        by_cases h200 : pyEq200 ((fields.lookup "status").getD .null) = true
        · by_cases hdict : isDict ((fields.lookup "data").getD .null) = true
          · obtain ⟨df, hd⟩ := isDict_true_obj _ hdict
            refine ⟨?_, df, ?_⟩
            · simpa [specField_obj] using (status_ex_iff fields).mpr h200
            · simpa [specField_obj] using hd
          · rw [Bool.not_eq_true] at hdict
            rw [login_obj_attr_of_not_dict fields token h200 hdict] at ht
            exact Except.noConfusion ht
        · rw [Bool.not_eq_true] at h200
          exact absurd ht (login_obj_ne_true_of_not200 fields token h200 t)
      · rintro ⟨hstex, df, hdf⟩
        have h200 : pyEq200 ((fields.lookup "status").getD .null) = true := by
          apply (status_ex_iff fields).mp
          simpa [specField_obj] using hstex
        have hd : (fields.lookup "data").getD .null = .obj df := by
          simpa [specField_obj] using hdf
        exact ⟨_, login_obj_true_of_dict fields token df h200 hd⟩
    · intro t ht
      by_cases h200 : pyEq200 ((fields.lookup "status").getD .null) = true
      · by_cases hdict : isDict ((fields.lookup "data").getD .null) = true
        · obtain ⟨df, hd⟩ := isDict_true_obj _ hdict
          rw [login_obj_true_of_dict fields token df h200 hd] at ht
          have htok : (df.lookup "token").getD .null = t :=
            congrArg LoginResult.token (Except.ok.inj ht)
          rw [← htok]
          simp [tokenOf, specField_obj, hd]
        · rw [Bool.not_eq_true] at hdict
          rw [login_obj_attr_of_not_dict fields token h200 hdict] at ht
          exact Except.noConfusion ht
      · rw [Bool.not_eq_true] at h200
        exact absurd ht (login_obj_ne_true_of_not200 fields token h200 t)
  | null =>
    constructor
    · constructor
      · rintro ⟨t, ht⟩
        rw [login_not_dict Json.null token rfl] at ht
        split at ht <;> simp at ht
      · rintro ⟨⟨st, hst, -⟩, -⟩
        simp [specField] at hst
    · intro t ht
      rw [login_not_dict Json.null token rfl] at ht
      split at ht <;> simp at ht
  | bool b =>
    constructor
    · constructor
      · rintro ⟨t, ht⟩
        rw [login_not_dict (Json.bool b) token rfl] at ht
        split at ht <;> simp at ht
      · rintro ⟨⟨st, hst, -⟩, -⟩
        simp [specField] at hst
    · intro t ht
      rw [login_not_dict (Json.bool b) token rfl] at ht
      split at ht <;> simp at ht
  | num q =>
    constructor
    · constructor
      · rintro ⟨t, ht⟩
        rw [login_not_dict (Json.num q) token rfl] at ht
        split at ht <;> simp at ht
      · rintro ⟨⟨st, hst, -⟩, -⟩
        simp [specField] at hst
    · intro t ht
      rw [login_not_dict (Json.num q) token rfl] at ht
      split at ht <;> simp at ht
  | str s =>
    constructor
    · constructor
      · rintro ⟨t, ht⟩
        rw [login_not_dict (Json.str s) token rfl] at ht
        split at ht <;> simp at ht
      · rintro ⟨⟨st, hst, -⟩, -⟩
        simp [specField] at hst
    · intro t ht
      rw [login_not_dict (Json.str s) token rfl] at ht
      split at ht <;> simp at ht
  | arr items =>
    constructor
    · constructor
      · rintro ⟨t, ht⟩
        rw [login_not_dict (Json.arr items) token rfl] at ht
        split at ht <;> simp at ht
      · rintro ⟨⟨st, hst, -⟩, -⟩
        simp [specField] at hst
    · intro t ht
      rw [login_not_dict (Json.arr items) token rfl] at ht
      split at ht <;> simp at ht

/-- Witness for C1 (amended): the empty-token response satisfies the actual
success condition, `login` returns `True` on it, and the stored token is the
empty string read from `data.token`. -/
theorem login_true_iff_status200_and_data_dict_witness :
    (∃ t, login emptyTokenResponse .null = .ok ⟨true, t⟩) ∧
    Json.str "" = tokenOf emptyTokenResponse :=
  ⟨(login_true_iff_status200_and_data_dict emptyTokenResponse .null).1.mpr
      ⟨⟨.num 200, by decide, by decide⟩, [("token", .str "")], by decide⟩,
   (login_true_iff_status200_and_data_dict emptyTokenResponse .null).2
      (.str "") (by decide)⟩

/-- C4: whatever headers the caller supplies and whatever the configured
constant values are, the outgoing header set binds every fixed protocol
header (Accept, User-Agent, Accept-Language, X-Theme, X-App, X-Platform,
X-Version) to its fixed value — a caller-supplied value for one of these
keys is overwritten. -/
theorem request_headers_fixed_win (caller : List (String × String))
    (userAgent xTheme xApp xPlatform xVersion : String) (k v : String)
    (hmem : (k, v) ∈ fixedHeaders userAgent xTheme xApp xPlatform xVersion) :
    (requestHeaders caller userAgent xTheme xApp xPlatform xVersion).lookup k =
      some v := by
  simp only [fixedHeaders, List.mem_cons, List.not_mem_nil, or_false,
    Prod.mk.injEq] at hmem
  rcases hmem with ⟨rfl, rfl⟩ | ⟨rfl, rfl⟩ | ⟨rfl, rfl⟩ | ⟨rfl, rfl⟩ |
    ⟨rfl, rfl⟩ | ⟨rfl, rfl⟩ | ⟨rfl, rfl⟩ <;>
    simp [requestHeaders, headerUpdate, fixedHeaders, lookup_pySetItem]

/-- Witness for C4: a caller-supplied User-Agent is overwritten by the
configured one. -/
theorem request_headers_fixed_win_witness :
    (requestHeaders [("User-Agent", "spoofed")] "UA" "TH" "AP" "PL" "VE").lookup
      "User-Agent" = some "UA" :=
  request_headers_fixed_win [("User-Agent", "spoofed")] "UA" "TH" "AP" "PL" "VE"
    "User-Agent" "UA" (by simp [fixedHeaders])

/-- C5: for a list payload whose `data` array holds device entries that all
process successfully, the device mapper returns a mapping in which each
record is keyed by its entry's serial, lookup of any key yields the record
of the last entry carrying that serial (later entries overwrite earlier
ones), and when the serials are pairwise distinct the mapping has exactly
one binding per entry. -/
theorem build_device_list_keyed_by_serial_last_wins (payload : Json)
    (entries : List Json) (devs : List MySmartBikeDevice)
    (hdata : pyIndex payload "data" = .ok (.arr entries))
    (h : List.Forall₂ (fun e dd => processBike e = .ok dd) entries devs) :
    ∃ m, _build_device_list payload = .ok m ∧
      List.Forall₂ (fun e dd => pyIndex e "serial" = .ok dd.serial) entries devs ∧
      (∀ k, m.lookup k = devs.reverse.find? (fun dd => dd.serial == k)) ∧
      ((devs.map (fun dd => dd.serial)).Nodup → m.length = devs.length) := by
  refine ⟨devs.foldl (fun m dd => pySetItem m dd.serial dd) [], ?_, ?_, ?_, ?_⟩
  · unfold _build_device_list
    rw [hdata]
    simp only [ok_bind, pyIterate]
    exact buildLoop_ok_of_forall entries devs h []
  · exact h.imp (fun _ _ hpd => (processBike_inv _ _ hpd).2.1)
  · intro k
    rw [lookup_foldl_pySetItem]
    simp [List.lookup]
  · intro hnd
    rw [length_foldl_pySetItem devs [] hnd (fun dd _ => rfl)]
    simp

/-- Witness for C5: the two-entry payload with distinct serials "BK1" and
"BK2" maps to a mapping in which "BK2" is bound to its record. -/
theorem build_device_list_keyed_by_serial_last_wins_witness :
    ∃ m, _build_device_list twoEntryPayload = .ok m ∧
      m.lookup (.str "BK2") = some twoNodeDevice := by
  obtain ⟨m, hm, -, hlook, -⟩ :=
    build_device_list_keyed_by_serial_last_wins twoEntryPayload
      [exampleEntry, twoNodeEntry] [exampleDevice, twoNodeDevice] rfl
      (List.Forall₂.cons rfl (List.Forall₂.cons rfl List.Forall₂.nil))
  refine ⟨m, hm, ?_⟩
  rw [hlook]
  decide

/-- C6: when the `object_tree` of a successfully mapped device entry holds
two or more nodes carrying `state_of_charge` (respectively
`remaining_capacity`), the record's field equals the value supplied by the
node appearing latest in the array — the scan keeps the last occurrence
instead of stopping at the first match. -/
theorem object_tree_scan_last_occurrence_wins (rbike : Json)
    (d : MySmartBikeDevice) (tree : Json) (nodes : List Json)
    (h : processBike rbike = .ok d)
    (ht : pyIndex rbike "object_tree" = .ok tree)
    (hn : pyIterate tree = .ok nodes) :
    (2 ≤ nodes.countP (fun n => hasKeyB n "state_of_charge") →
      lastKeyValue nodes "state_of_charge" = some d.state_of_charge) ∧
    (2 ≤ nodes.countP (fun n => hasKeyB n "remaining_capacity") →
      lastKeyValue nodes "remaining_capacity" = some d.remaining_capacity) := by
  obtain ⟨⟨tree2, nodes2, ht2, hn2, hscan⟩, -, -⟩ := processBike_inv _ _ h
  have htt : tree = tree2 := Except.ok.inj (ht.symm.trans ht2)
  subst htt
  have hnn : nodes = nodes2 := Except.ok.inj (hn.symm.trans hn2)
  subst hnn
  obtain ⟨hs, hr⟩ := scanTree_char nodes _ _ hscan
  dsimp only at hs hr
  constructor
  · intro hcount
    rw [lastKeyValue_isSome_of_countP nodes _ hcount, hs]
  · intro hcount
    rw [lastKeyValue_isSome_of_countP nodes _ hcount, hr]

/-- Witness for C6: in the three-node tree, two nodes carry each key, and
the record keeps the later values 80 and 44. -/
theorem object_tree_scan_last_occurrence_wins_witness :
    2 ≤ twoNodeTreeNodes.countP (fun n => hasKeyB n "state_of_charge") ∧
    lastKeyValue twoNodeTreeNodes "state_of_charge" =
      some twoNodeDevice.state_of_charge ∧
    lastKeyValue twoNodeTreeNodes "remaining_capacity" =
      some twoNodeDevice.remaining_capacity :=
  ⟨by decide,
   (object_tree_scan_last_occurrence_wins twoNodeEntry twoNodeDevice
      (.arr twoNodeTreeNodes) twoNodeTreeNodes rfl rfl rfl).1 (by decide),
   (object_tree_scan_last_occurrence_wins twoNodeEntry twoNodeDevice
      (.arr twoNodeTreeNodes) twoNodeTreeNodes rfl rfl rfl).2 (by decide)⟩

end MySmartBike
